import Mathlib

/-!
# Verification of the kywy-loader device-discovery and flashing core

A shallow embedding of the flashing helpers of `kywy-loader.py`:
the serial-port locator (`find_rp2040_serial`), the 1200-baud reset
touch (`touch_1200_baud`), the three platform drive locators
(`find_rp2040_drive_windows` / `_macos` / `_linux` with
`check_rp2040_block` and `mount_or_find_mount`), the firmware fetcher
(`download_uf2`) and the orchestration procedure
(`install_uf2_procedure`).

Ambient OS state (attached ports, visible volumes, udev events, the
mount table, filesystem and network results) is passed explicitly as
data; each polling loop over wall-clock time becomes recursion over the
list of snapshots the successive polls would observe.  Python string
operations are modelled over the character lists of Lean strings
(`lower()` on the ASCII range, which covers every constant the program
compares against).  Python exceptions become `Except` values or tagged
outcome constructors.
-/

/-! ## Character and substring machinery

Python's `in` operator on strings (contiguous-substring test) and
`str.lower()` on the ASCII range, modelled over `List Char`. -/

/-- ASCII lowercasing of one character, as Python `str.lower()` acts on
the ASCII range (A–Z ↦ a–z, all else unchanged). -/
def lowerChar (c : Char) : Char :=
  if 65 ≤ c.toNat ∧ c.toNat ≤ 90 then Char.ofNat (c.toNat + 32) else c

/-- `takesLead n h` is true when `n` is a leading segment of `h`
(Python `h.startswith(n)` over character lists). -/
def takesLead : List Char → List Char → Bool
  | [], _ => true
  | _ :: _, [] => false
  | a :: n, b :: h => a == b && takesLead n h

/-- `occursIn n h` is true when `n` appears contiguously inside `h`
(Python `n in h` over character lists). -/
def occursIn (n : List Char) : List Char → Bool
  | [] => n.isEmpty
  | b :: h => takesLead n (b :: h) || occursIn n h

/-! ## Hexadecimal formatting

Python's `f"{v:04x}"`: lowercase hex digits of `v`, zero-padded on the
left to width four.  `hexLE` produces the digits little-endian with a
structural fuel argument; `hexValLE` is its verified inverse. -/

/-- The lowercase hex digit character for `d < 16`. -/
def hexDigitChar (d : Nat) : Char :=
  if d < 10 then Char.ofNat (48 + d) else Char.ofNat (87 + d)

/-- Numeric value of a lowercase hex digit character. -/
def hexCharVal (c : Char) : Nat :=
  if 97 ≤ c.toNat then c.toNat - 87 else c.toNat - 48

/-- Little-endian hex digits of `v`; `fuel ≥ v` suffices. -/
def hexLE : Nat → Nat → List Char
  | 0, _ => []
  | fuel + 1, v => if v = 0 then [] else hexDigitChar (v % 16) :: hexLE fuel (v / 16)

/-- Value of a little-endian list of hex digit characters. -/
def hexValLE (cs : List Char) : Nat :=
  cs.foldr (fun c acc => hexCharVal c + 16 * acc) 0

/-- Python `f"{v:04x}"`: big-endian hex digits of `v`, left-padded with
zeros to at least four characters. -/
def hexFmt4 (v : Nat) : String :=
  let cs := (hexLE v v).reverse
  String.mk (List.replicate (4 - cs.length) '0' ++ cs)

/-! ## SerialPortLocator — `find_rp2040_serial`

One enumerated serial device as `pyserial`'s `comports()` reports it.
`vid`, `pid` and `manufacturer` are `Option`s because `pyserial` leaves
them `None` when the platform does not supply them; Python truthiness
of an optional integer (`if port.vid`) is "present and nonzero", of an
optional string ("`port.manufacturer and ...`") is "present and
nonempty". -/

structure PortInfo where
  device : String
  vid : Option Nat
  pid : Option Nat
  manufacturer : Option String
deriving DecidableEq

/-- `vid = f"{port.vid:04x}" if port.vid else None` — the formatted hex
identifier, or `none` when the raw field is absent or zero (both are
falsy in Python). -/
def fmtId : Option Nat → Option String
  | none => none
  | some v => if v = 0 then none else some (hexFmt4 v)

/-- The manufacturer half of the match condition:
`port.manufacturer and "koinslot" in port.manufacturer.lower()`. -/
def manuMatches : Option String → Bool
  | none => false
  | some m =>
    if m = "" then false
    else occursIn "koinslot".toList (m.toList.map lowerChar)

/-- The full per-port match condition of the loop body of
`find_rp2040_serial`. -/
def portMatches (p : PortInfo) : Bool :=
  manuMatches p.manufacturer ||
    (fmtId p.vid == some "2e8a" && fmtId p.pid == some "00c0")

/-- `find_rp2040_serial`: scan the enumerated ports in order and return
the `device` of the first match; `None` when no port matches.  The
function only reads each port's fields and so raises nothing. -/
def find_rp2040_serial : List PortInfo → Option String
  | [] => none
  | p :: rest => if portMatches p then some p.device else find_rp2040_serial rest

/-- The spec's candidate rule (§4.1), stated over the raw descriptor:
the vendor/product identity is VID 0x2E8A / PID 0x00C0, or the
manufacturer string contains the vendor name "koinslot" after ASCII
lowercasing. -/
def isCandidate (p : PortInfo) : Prop :=
  (p.vid = some 0x2E8A ∧ p.pid = some 0x00C0) ∨
    (∃ m, p.manufacturer = some m ∧
      ∃ s t, m.toList.map lowerChar = s ++ "koinslot".toList ++ t)

/-! ## BaudTouchTrigger — `touch_1200_baud`

The body opens the port at 1200 baud (`serial.Serial(...)`, which may
raise) and closes it (which may raise); the surrounding
`try`/`except Exception` converts any such error into a printed
warning and a normal return.  The two fallible steps are passed as
explicit `Except` results. -/

/-- What one invocation of `touch_1200_baud` leaves behind: the
success print `Sent 1200 baud to {port}` or the warning print
`Failed 1200 baud touch: {e}`. -/
inductive TouchLog where
  | sent (port : String)
  | failed (port msg : String)
deriving DecidableEq

/-- The `try` body of `touch_1200_baud`: open then close, either step
propagating its exception. -/
def touchBody (openRes closeRes : Except String Unit) (port : String) :
    Except String TouchLog :=
  match openRes with
  | .error e => .error e
  | .ok _ =>
    match closeRes with
    | .error e => .error e
    | .ok _ => .ok (.sent port)

/-- `touch_1200_baud`: the body wrapped in `except Exception as e`,
which downgrades any raised error to the warning log line.  The
codomain is `TouchLog`, not `Except`: the wrapped call always returns
normally. -/
def touch_1200_baud (port : String) (openRes closeRes : Except String Unit) :
    TouchLog :=
  match touchBody openRes closeRes port with
  | .ok l => l
  | .error e => .failed port ("Failed 1200 baud touch: " ++ e)

/-! ## DriveLocator — the three platform strategies

Each polling loop (`while time.time() - start < timeout: ...;
time.sleep(0.5)`) is modelled as recursion over the list of snapshots
its successive iterations would observe; an empty list is an elapsed
timeout. -/

/-- One volume as the Windows strategy sees it: a present drive root
(e.g. `E:\`), the volume label `GetVolumeInformationW` reports, and the
file names at its root.  The source never reads the root files in
`find_rp2040_drive_windows`; the field exists so that the spec's
marker-file clause is statable against this strategy. -/
structure WinVolume where
  root : String
  label : String
  files : List String
deriving DecidableEq

/-- One iteration of the Windows drive-letter loop: the first present
drive whose volume label is exactly `RPI-RP2`, if any. -/
def winScan : List WinVolume → Option String
  | [] => none
  | v :: rest => if v.label == "RPI-RP2" then some v.root else winScan rest

/-- `find_rp2040_drive_windows`: poll the drive scan until a match or
until the timeout elapses (`snapshots` exhausted). -/
def find_rp2040_drive_windows : List (List WinVolume) → Option String
  | [] => none
  | snap :: rest =>
    match winScan snap with
    | some r => some r
    | none => find_rp2040_drive_windows rest

/-- One iteration of the macOS loop over `os.listdir("/Volumes/")`:
the first entry whose NAME CONTAINS `RPI-RP2` (`"RPI-RP2" in d` is a
substring test, not an equality), returned as `/Volumes/<name>`. -/
def macScan : List String → Option String
  | [] => none
  | d :: rest =>
    if occursIn "RPI-RP2".toList d.toList then some ("/Volumes/" ++ d)
    else macScan rest

/-- `find_rp2040_drive_macos`: poll the `/Volumes` listing until a
match or until the timeout elapses. -/
def find_rp2040_drive_macos : List (List String) → Option String
  | [] => none
  | snap :: rest =>
    match macScan snap with
    | some r => some r
    | none => find_rp2040_drive_macos rest

/-- A udev block device: its device node (e.g. `/dev/sdb1`) and its
`ID_FS_LABEL` property, with the absent property modelled as the
default `''` that `device.get('ID_FS_LABEL', '')` supplies. -/
structure BlockDevice where
  node : String
  label : String
deriving DecidableEq

/-- `check_rp2040_block`: the device's filesystem label is exactly
`RPI-RP2`. -/
def check_rp2040_block (dev : BlockDevice) : Bool :=
  dev.label == "RPI-RP2"

/-- `mount_or_find_mount` against a snapshot of `/proc/mounts`, given
as `(mount point, device)` pairs in the iteration order of the dict
`get_mounts` builds: the first mount point whose device equals the
device's node, else `None` (the function never mounts anything
itself). -/
def mount_or_find_mount (mounts : List (String × String)) (dev : BlockDevice) :
    Option String :=
  match mounts with
  | [] => none
  | (mp, md) :: rest =>
    if md == dev.node then some mp else mount_or_find_mount rest dev

/-- Phase 1 of the Linux strategy: the `for device in
context.list_devices(subsystem='block')` loop, returning the first
already-attached device that passes `check_rp2040_block`. -/
def scanExisting : List BlockDevice → Option BlockDevice
  | [] => none
  | d :: rest => if check_rp2040_block d then some d else scanExisting rest

/-- One netlink hotplug event as the monitor delivers it. -/
structure UdevEvent where
  action : String
  subsystem : String
  device : BlockDevice
deriving DecidableEq

/-- Phase 2 of the Linux strategy: the monitor loop.  On the first
`add` event on the `block` subsystem whose device passes
`check_rp2040_block`, the source does `return mount_or_find_mount(
device)` — it returns that value even when it is `None`.  Exhausting
the events is the elapsed timeout. -/
def processEvents (mounts : List (String × String)) : List UdevEvent → Option String
  | [] => none
  | e :: rest =>
    if e.action == "add" && e.subsystem == "block" && check_rp2040_block e.device
    then mount_or_find_mount mounts e.device
    else processEvents mounts rest

/-- The Linux world `find_rp2040_drive_linux` observes: the block
devices already attached when it starts, the hotplug events that would
arrive within the timeout, and the `/proc/mounts` snapshot. -/
structure LinuxEnv where
  existing : List BlockDevice
  events : List UdevEvent
  mounts : List (String × String)
deriving DecidableEq

/-- `find_rp2040_drive_linux`: scan the existing devices first; on a
match, `return mount_or_find_mount(device)` immediately (even when
that is `None` — the monitor is then never started).  Only when no
existing device matches does the monitor loop run. -/
def find_rp2040_drive_linux (env : LinuxEnv) : Option String :=
  match scanExisting env.existing with
  | some dev => mount_or_find_mount env.mounts dev
  | none => processEvents env.mounts env.events

/-! ## FirmwareFetcher — `download_uf2` -/

/-- The filesystem/network facts `download_uf2` consults: which local
paths `os.path.isfile` affirms, the HTTP status a `requests.get` of
the URL would return, and `tempfile.gettempdir()`. -/
structure FetchEnv where
  localFiles : List String
  status : Nat
  tmpDir : String
deriving DecidableEq

/-- `download_uf2 url target_filename`: a `file://` URL strips the
scheme and must name an existing local file; any other URL is fetched
and must answer 200, the body then landing in
`<tmpdir>/<target_filename>`.  Both failure paths raise, modelled as
`Except.error` carrying the exception message. -/
def download_uf2 (fe : FetchEnv) (url fname : String) : Except String String :=
  if takesLead "file://".toList url.toList then
    let localPath := String.mk (url.toList.drop 7)
    if localPath ∈ fe.localFiles then .ok localPath
    else .error ("Local UF2 not found: " ++ localPath)
  else if fe.status = 200 then .ok (fe.tmpDir ++ "/" ++ fname)
  else .error ("Failed to download UF2 file: " ++ url)

/-! ## FlashOrchestrator — `install_uf2_procedure`

The procedure's observable actions become a trace of `Event`s and its
exit (normal return or raised exception) a tagged `Outcome`. -/

/-- One observable action of `install_uf2_procedure`, in program
order. -/
inductive Event where
  | findDrive (timeoutSecs : Nat)
  | scanPorts
  | touch (port : String) (log : TouchLog)
  | sleepMs (ms : Nat)
  | fetch (url : String)
  | copy (drive file : String)
deriving DecidableEq

/-- How one run of `install_uf2_procedure` ends.  `noDeviceFound` is
the raise `No RP2040 serial device found (no RPI-RP2 drive, no serial
port)!`, `deviceNotFoundAfterReset` the raise `Timeout: RP2040 mass
storage device not found after reset!`, `fetchFailed` a raise escaping
`download_uf2`, and `writeFailed` a raise escaping `shutil.copy`. -/
inductive Outcome where
  | success (drive : String)
  | noDeviceFound
  | deviceNotFoundAfterReset
  | fetchFailed (msg : String)
  | writeFailed (msg : String)
deriving DecidableEq

/-- The world one run of `install_uf2_procedure` interacts with:
the result the short-timeout `find_rp2040_drive(timeout=2)` call would
produce, the enumerated serial ports, the open/close results of the two
1200-baud touches, the result the post-reset
`find_rp2040_drive(timeout=10)` call would produce, the fetcher's
world, and the result of the `shutil.copy` to the volume.  The two
drive probes are distinct calls at distinct times, hence separate
fields. -/
structure Env where
  probeDrive : Option String
  ports : List PortInfo
  openRes1 : Except String Unit
  closeRes1 : Except String Unit
  openRes2 : Except String Unit
  closeRes2 : Except String Unit
  awaitDrive : Option String
  fetchEnv : FetchEnv
  copyRes : Except String Unit

/-- The tail of the procedure once a drive is in hand: fetch the image
(`download_uf2`), then copy it onto the drive.  A fetch error
propagates before any copy is attempted. -/
def finishFlash (env : Env) (url fname drive : String) : List Event × Outcome :=
  match download_uf2 env.fetchEnv url fname with
  | .error e => ([Event.fetch url], Outcome.fetchFailed e)
  | .ok _ =>
    match env.copyRes with
    | .error e => ([Event.fetch url, Event.copy drive fname], Outcome.writeFailed e)
    | .ok _ => ([Event.fetch url, Event.copy drive fname], Outcome.success drive)

/-- `install_uf2_procedure(download_url, target_filename)`:
probe for an existing drive with timeout 2; if found go straight to
fetch-and-copy.  Otherwise locate a serial port (failure: raise),
touch 1200 baud twice with `time.sleep(0.5)` between and
`time.sleep(5)` after, re-probe with timeout 10 (failure: raise), then
fetch-and-copy. -/
def install_uf2_procedure (env : Env) (url fname : String) : List Event × Outcome :=
  match env.probeDrive with
  | some drive =>
    let r := finishFlash env url fname drive
    (Event.findDrive 2 :: r.1, r.2)
  | none =>
    match find_rp2040_serial env.ports with
    | none => ([Event.findDrive 2, Event.scanPorts], Outcome.noDeviceFound)
    | some port =>
      let l1 := touch_1200_baud port env.openRes1 env.closeRes1
      let l2 := touch_1200_baud port env.openRes2 env.closeRes2
      let pre := [Event.findDrive 2, Event.scanPorts, Event.touch port l1,
        Event.sleepMs 500, Event.touch port l2, Event.sleepMs 5000,
        Event.findDrive 10]
      match env.awaitDrive with
      | none => (pre, Outcome.deviceNotFoundAfterReset)
      | some drive =>
        let r := finishFlash env url fname drive
        (pre ++ r.1, r.2)

/-! ## Trace observations -/

/-- Number of 1200-baud touch invocations in a trace. -/
def countTouch (evs : List Event) : Nat :=
  evs.countP fun e => match e with | .touch _ _ => true | _ => false

/-- Number of serial-port enumerations in a trace. -/
def countScan (evs : List Event) : Nat :=
  evs.countP fun e => match e with | .scanPorts => true | _ => false

/-- Number of image fetches in a trace. -/
def countFetch (evs : List Event) : Nat :=
  evs.countP fun e => match e with | .fetch _ => true | _ => false

/-- Number of write attempts against the volume in a trace. -/
def countCopy (evs : List Event) : Nat :=
  evs.countP fun e => match e with | .copy _ _ => true | _ => false

/-! ## The spec's claimed volume-match rule

Stated from the spec's words, for comparison with what the locator
strategies actually test: label equality with `RPI-RP2`, or — as a
fallback — the marker file `INFO_UF2.TXT` at the volume's root (the
name the unused helper `check_rp2040_drive` uses). -/

/-- The volume-acceptance rule the spec claims all three strategies
use. -/
def specVolumeMatches (label : String) (files : List String) : Prop :=
  label = "RPI-RP2" ∨ "INFO_UF2.TXT" ∈ files

/-! ## Helper lemmas -/

theorem takesLead_iff (n : List Char) : ∀ h : List Char,
    takesLead n h = true ↔ ∃ t, h = n ++ t := by
  induction n with
  | nil => intro h; simp [takesLead]
  | cons a n ih =>
    intro h
    cases h with
    | nil => simp [takesLead]
    | cons b h =>
      simp only [takesLead, Bool.and_eq_true, beq_iff_eq, List.cons_append,
        List.cons.injEq, ih]
      constructor
      · rintro ⟨rfl, t, rfl⟩; exact ⟨t, rfl, rfl⟩
      · rintro ⟨t, rfl, rfl⟩; exact ⟨rfl, t, rfl⟩

theorem occursIn_iff (n : List Char) : ∀ h : List Char,
    occursIn n h = true ↔ ∃ s t, h = s ++ n ++ t := by
  intro h
  induction h with
  | nil =>
    simp only [occursIn, List.isEmpty_iff]
    constructor
    · rintro rfl; exact ⟨[], [], rfl⟩
    · rintro ⟨s, t, hst⟩
      rcases List.append_eq_nil.mp (List.append_eq_nil.mp hst.symm).1 with ⟨-, h2⟩
      exact h2
  | cons b h ih =>
    simp only [occursIn, Bool.or_eq_true, takesLead_iff, ih]
    constructor
    · rintro (⟨t, ht⟩ | ⟨s, t, hst⟩)
      · exact ⟨[], t, by simpa using ht⟩
      · exact ⟨b :: s, t, by simp [hst]⟩
    · rintro ⟨s, t, hst⟩
      cases s with
      | nil => exact Or.inl ⟨t, by simpa using hst⟩
      | cons x s =>
        rcases List.cons.injEq .. ▸ hst with ⟨rfl, htl⟩
        exact Or.inr ⟨s, t, by simpa using htl⟩

theorem hexCharVal_hexDigitChar : ∀ d, d < 16 → hexCharVal (hexDigitChar d) = d := by
  decide

theorem hexValLE_hexLE : ∀ fuel v : Nat, v ≤ fuel → hexValLE (hexLE fuel v) = v := by
  intro fuel
  induction fuel with
  | zero =>
    intro v hv
    have : v = 0 := Nat.le_zero.mp hv
    subst this; simp [hexLE, hexValLE]
  | succ fuel ih =>
    intro v hv
    by_cases h0 : v = 0
    · subst h0; simp [hexLE, hexValLE]
    · have hpos : 0 < v := Nat.pos_of_ne_zero h0
      have hlt : v / 16 < v := Nat.div_lt_self hpos (by norm_num)
      have hfuel : v / 16 ≤ fuel := Nat.lt_succ_iff.mp (Nat.lt_of_lt_of_le hlt hv)
      have hmod : v % 16 < 16 := Nat.mod_lt _ (by norm_num)
      simp only [hexLE, if_neg h0, hexValLE, List.foldr_cons]
      have := ih (v / 16) hfuel
      simp only [hexValLE] at this
      rw [this, hexCharVal_hexDigitChar _ hmod, Nat.mod_add_div]

theorem hexFmt4_eq_2e8a {v : Nat} (h : hexFmt4 v = "2e8a") : v = 11914 := by
  have hd : List.replicate (4 - (hexLE v v).reverse.length) '0' ++ (hexLE v v).reverse
      = ['2', 'e', '8', 'a'] := congrArg String.data h
  have hrt := hexValLE_hexLE v v le_rfl
  rcases hcs : (hexLE v v).reverse with _ | ⟨a, _ | ⟨b, _ | ⟨c, _ | ⟨d, rest⟩⟩⟩⟩ <;>
      rw [hcs] at hd
  · simp [List.replicate] at hd
  · simp [List.replicate] at hd
  · simp [List.replicate] at hd
  · simp [List.replicate] at hd
  · have hlen : rest = [] := by
      have hL := congrArg List.length hd
      simp only [List.length_append, List.length_replicate, List.length_cons,
        List.length_nil] at hL
      exact List.length_eq_zero.mp (by omega)
    subst hlen
    simp [List.replicate, Nat.sub_eq_zero_of_le] at hd
    obtain ⟨rfl, rfl, rfl, rfl⟩ := hd
    have hv2 : hexLE v v = ['a', '8', 'e', '2'] := by
      have := congrArg List.reverse hcs
      simpa using this
    rw [hv2] at hrt
    have hval : hexValLE ['a', '8', 'e', '2'] = 11914 := by decide
    omega

theorem hexFmt4_eq_00c0 {v : Nat} (h : hexFmt4 v = "00c0") : v = 192 := by
  have hd : List.replicate (4 - (hexLE v v).reverse.length) '0' ++ (hexLE v v).reverse
      = ['0', '0', 'c', '0'] := congrArg String.data h
  have hrt := hexValLE_hexLE v v le_rfl
  rcases hcs : (hexLE v v).reverse with _ | ⟨a, _ | ⟨b, _ | ⟨c, _ | ⟨d, rest⟩⟩⟩⟩ <;>
      rw [hcs] at hd
  · simp [List.replicate] at hd
  · simp [List.replicate] at hd
  · simp [List.replicate] at hd
    obtain ⟨rfl, rfl⟩ := hd
    have hv2 : hexLE v v = ['0', 'c'] := by
      have := congrArg List.reverse hcs
      simpa using this
    rw [hv2] at hrt
    have hval : hexValLE ['0', 'c'] = 192 := by decide
    omega
  · simp [List.replicate] at hd
    obtain ⟨rfl, rfl, rfl⟩ := hd
    have hv2 : hexLE v v = ['0', 'c', '0'] := by
      have := congrArg List.reverse hcs
      simpa using this
    rw [hv2] at hrt
    have hval : hexValLE ['0', 'c', '0'] = 192 := by decide
    omega
  · have hlen : rest = [] := by
      have hL := congrArg List.length hd
      simp only [List.length_append, List.length_replicate, List.length_cons,
        List.length_nil] at hL
      exact List.length_eq_zero.mp (by omega)
    subst hlen
    simp [List.replicate, Nat.sub_eq_zero_of_le] at hd
    obtain ⟨rfl, rfl, rfl, rfl⟩ := hd
    have hv2 : hexLE v v = ['0', 'c', '0', '0'] := by
      have := congrArg List.reverse hcs
      simpa using this
    rw [hv2] at hrt
    have hval : hexValLE ['0', 'c', '0', '0'] = 192 := by decide
    omega

theorem fmtId_eq_2e8a (ov : Option Nat) :
    fmtId ov = some "2e8a" ↔ ov = some 11914 := by
  cases ov with
  | none => simp [fmtId]
  | some v =>
    constructor
    · intro h
      simp only [fmtId] at h
      by_cases h0 : v = 0
      · simp [h0] at h
      · rw [if_neg h0, Option.some.injEq] at h
        exact congrArg some (hexFmt4_eq_2e8a h)
    · rintro h
      rw [Option.some.injEq] at h
      subst h
      simp only [fmtId, if_neg (by norm_num : (11914 : Nat) ≠ 0)]
      have : hexFmt4 11914 = "2e8a" := by decide
      rw [this]

theorem fmtId_eq_00c0 (ov : Option Nat) :
    fmtId ov = some "00c0" ↔ ov = some 192 := by
  cases ov with
  | none => simp [fmtId]
  | some v =>
    constructor
    · intro h
      simp only [fmtId] at h
      by_cases h0 : v = 0
      · simp [h0] at h
      · rw [if_neg h0, Option.some.injEq] at h
        exact congrArg some (hexFmt4_eq_00c0 h)
    · rintro h
      rw [Option.some.injEq] at h
      subst h
      simp only [fmtId, if_neg (by norm_num : (192 : Nat) ≠ 0)]
      have : hexFmt4 192 = "00c0" := by decide
      rw [this]

theorem manuMatches_iff (om : Option String) :
    manuMatches om = true ↔
      ∃ m, om = some m ∧ ∃ s t, m.toList.map lowerChar = s ++ "koinslot".toList ++ t := by
  cases om with
  | none => simp [manuMatches]
  | some m =>
    by_cases hm : m = ""
    · subst hm
      simp only [manuMatches, if_pos rfl, Option.some.injEq]
      constructor
      · intro h; exact absurd h (by simp)
      · rintro ⟨m, rfl, s, t, hst⟩
        exfalso
        have := congrArg List.length hst
        simp at this
        omega
    · simp only [manuMatches, if_neg hm, occursIn_iff, Option.some.injEq]
      constructor
      · rintro ⟨s, t, hst⟩; exact ⟨m, rfl, s, t, hst⟩
      · rintro ⟨m2, rfl, s, t, hst⟩; exact ⟨s, t, hst⟩

theorem portMatches_iff (p : PortInfo) : portMatches p = true ↔ isCandidate p := by
  simp only [portMatches, isCandidate, Bool.or_eq_true, Bool.and_eq_true,
    beq_iff_eq, fmtId_eq_2e8a, fmtId_eq_00c0, manuMatches_iff]
  constructor
  · rintro (h | ⟨h1, h2⟩)
    · exact Or.inr h
    · exact Or.inl ⟨h1, h2⟩
  · rintro (⟨h1, h2⟩ | h)
    · exact Or.inr ⟨h1, h2⟩
    · exact Or.inl h

theorem find_serial_isSome (ports : List PortInfo) :
    (find_rp2040_serial ports).isSome = true ↔ ∃ p ∈ ports, isCandidate p := by
  induction ports with
  | nil => simp [find_rp2040_serial]
  | cons p rest ih =>
    by_cases hp : portMatches p = true
    · simp only [find_rp2040_serial, if_pos hp, Option.isSome_some, true_iff]
      exact ⟨p, List.mem_cons_self p rest, (portMatches_iff p).mp hp⟩
    · have hnc : ¬ isCandidate p := fun hc => hp ((portMatches_iff p).mpr hc)
      simp only [find_rp2040_serial, if_neg hp, ih]
      constructor
      · rintro ⟨q, hq, hcq⟩; exact ⟨q, List.mem_cons_of_mem p hq, hcq⟩
      · rintro ⟨q, hq, hcq⟩
        rcases List.mem_cons.mp hq with rfl | hq2
        · exact absurd hcq hnc
        · exact ⟨q, hq2, hcq⟩

theorem winScan_isSome (l : List WinVolume) :
    (winScan l).isSome = true ↔ ∃ v ∈ l, v.label = "RPI-RP2" := by
  induction l with
  | nil => simp [winScan]
  | cons v rest ih =>
    by_cases hv : v.label == "RPI-RP2"
    · simp only [winScan, if_pos hv, Option.isSome_some, true_iff]
      exact ⟨v, List.mem_cons_self v rest, beq_iff_eq.mp hv⟩
    · have hne : v.label ≠ "RPI-RP2" := fun hc => hv (beq_iff_eq.mpr hc)
      simp only [winScan, if_neg hv, ih]
      constructor
      · rintro ⟨w, hw, hl⟩; exact ⟨w, List.mem_cons_of_mem v hw, hl⟩
      · rintro ⟨w, hw, hl⟩
        rcases List.mem_cons.mp hw with rfl | hw2
        · exact absurd hl hne
        · exact ⟨w, hw2, hl⟩

theorem find_windows_isSome (snaps : List (List WinVolume)) :
    (find_rp2040_drive_windows snaps).isSome = true ↔
      ∃ snap ∈ snaps, ∃ v ∈ snap, v.label = "RPI-RP2" := by
  induction snaps with
  | nil => simp [find_rp2040_drive_windows]
  | cons snap rest ih =>
    cases hscan : winScan snap with
    | some r =>
      simp only [find_rp2040_drive_windows, hscan, Option.isSome_some, true_iff]
      have hs : (winScan snap).isSome = true := by rw [hscan]; rfl
      obtain ⟨v, hv, hl⟩ := (winScan_isSome snap).mp hs
      exact ⟨snap, List.mem_cons_self snap rest, v, hv, hl⟩
    | none =>
      have hno : ¬ ∃ v ∈ snap, v.label = "RPI-RP2" := by
        rw [← winScan_isSome snap, hscan]; simp
      simp only [find_rp2040_drive_windows, hscan, ih]
      constructor
      · rintro ⟨sn, hsn, hv⟩; exact ⟨sn, List.mem_cons_of_mem snap hsn, hv⟩
      · rintro ⟨sn, hsn, hv⟩
        rcases List.mem_cons.mp hsn with rfl | hsn2
        · exact absurd hv hno
        · exact ⟨sn, hsn2, hv⟩

theorem macScan_isSome (l : List String) :
    (macScan l).isSome = true ↔
      ∃ d ∈ l, ∃ s t, d.toList = s ++ "RPI-RP2".toList ++ t := by
  induction l with
  | nil => simp [macScan]
  | cons d rest ih =>
    by_cases hd : occursIn "RPI-RP2".toList d.toList = true
    · simp only [macScan, if_pos hd, Option.isSome_some, true_iff]
      exact ⟨d, List.mem_cons_self d rest, (occursIn_iff _ _).mp hd⟩
    · have hno : ¬ ∃ s t, d.toList = s ++ "RPI-RP2".toList ++ t :=
        fun hc => hd ((occursIn_iff _ _).mpr hc)
      simp only [macScan, if_neg hd, ih]
      constructor
      · rintro ⟨w, hw, hs⟩; exact ⟨w, List.mem_cons_of_mem d hw, hs⟩
      · rintro ⟨w, hw, hs⟩
        rcases List.mem_cons.mp hw with rfl | hw2
        · exact absurd hs hno
        · exact ⟨w, hw2, hs⟩

theorem find_macos_isSome (snaps : List (List String)) :
    (find_rp2040_drive_macos snaps).isSome = true ↔
      ∃ snap ∈ snaps, ∃ d ∈ snap, ∃ s t, d.toList = s ++ "RPI-RP2".toList ++ t := by
  induction snaps with
  | nil => simp [find_rp2040_drive_macos]
  | cons snap rest ih =>
    cases hscan : macScan snap with
    | some r =>
      simp only [find_rp2040_drive_macos, hscan, Option.isSome_some, true_iff]
      have hs : (macScan snap).isSome = true := by rw [hscan]; rfl
      obtain ⟨d, hd, hsub⟩ := (macScan_isSome snap).mp hs
      exact ⟨snap, List.mem_cons_self snap rest, d, hd, hsub⟩
    | none =>
      have hno : ¬ ∃ d ∈ snap, ∃ s t, d.toList = s ++ "RPI-RP2".toList ++ t := by
        rw [← macScan_isSome snap, hscan]; simp
      simp only [find_rp2040_drive_macos, hscan, ih]
      constructor
      · rintro ⟨sn, hsn, hv⟩; exact ⟨sn, List.mem_cons_of_mem snap hsn, hv⟩
      · rintro ⟨sn, hsn, hv⟩
        rcases List.mem_cons.mp hsn with rfl | hsn2
        · exact absurd hv hno
        · exact ⟨sn, hsn2, hv⟩

theorem mount_none_of_not_listed (mounts : List (String × String)) (dev : BlockDevice)
    (h : ∀ pr ∈ mounts, pr.2 ≠ dev.node) :
    mount_or_find_mount mounts dev = none := by
  induction mounts with
  | nil => rfl
  | cons pr rest ih =>
    obtain ⟨mp, md⟩ := pr
    have hne : md ≠ dev.node := h (mp, md) (List.mem_cons_self _ _)
    have hb : (md == dev.node) = false := beq_eq_false_iff_ne.mpr hne
    simp only [mount_or_find_mount, hb, Bool.false_eq_true, if_false]
    exact ih fun q hq => h q (List.mem_cons_of_mem _ hq)

theorem countTouch_append (a b : List Event) :
    countTouch (a ++ b) = countTouch a + countTouch b := by
  simp [countTouch, List.countP_append]

theorem finishFlash_fetch_error {env : Env} {url fname e : String}
    (h : download_uf2 env.fetchEnv url fname = .error e) (drive : String) :
    finishFlash env url fname drive = ([Event.fetch url], Outcome.fetchFailed e) := by
  unfold finishFlash
  rw [h]

theorem finishFlash_shape (env : Env) (url fname drive : String) :
    ∃ rest, (finishFlash env url fname drive).1 = Event.fetch url :: rest ∧
      countTouch rest = 0 ∧ countScan rest = 0 ∧ countFetch rest = 0 := by
  unfold finishFlash
  cases hdl : download_uf2 env.fetchEnv url fname with
  | error e => exact ⟨[], rfl, rfl, rfl, rfl⟩
  | ok p =>
    cases hcp : env.copyRes with
    | error e => exact ⟨[Event.copy drive fname], rfl, rfl, rfl, rfl⟩
    | ok u => exact ⟨[Event.copy drive fname], rfl, rfl, rfl, rfl⟩

/-! ## Claim theorems -/

/-- C1 counterexample: the claimed rule — a volume is accepted iff its
label equals `RPI-RP2` or the marker file sits at its root — fails on
the code.  A Windows volume labelled `KUMQUAT` that carries
`INFO_UF2.TXT` satisfies the claimed rule yet is rejected by
`find_rp2040_drive_windows` (no strategy reads the marker file); and a
macOS volume named `XRPI-RP2Y` violates the claimed rule (label not
equal, no marker) yet is accepted, because the source tests substring
containment, not equality. -/
theorem marker_file_fallback_refuted :
    specVolumeMatches "KUMQUAT" ["INFO_UF2.TXT"] ∧
    find_rp2040_drive_windows [[WinVolume.mk "E:\\" "KUMQUAT" ["INFO_UF2.TXT"]]] = none ∧
    ¬ specVolumeMatches "XRPI-RP2Y" [] ∧
    find_rp2040_drive_macos [["XRPI-RP2Y"]] = some "/Volumes/XRPI-RP2Y" := by
  refine ⟨Or.inr (by decide), by decide, ?_, by decide⟩
  rintro (h | h)
  · exact absurd h (by decide)
  · simp at h

/-- C1 (amended): each DriveLocator strategy accepts a volume exactly on
its label test, with no marker-file fallback: Windows yields a drive
iff some polled snapshot holds a volume whose label EQUALS `RPI-RP2`;
macOS yields one iff some polled listing holds an entry whose name
CONTAINS `RPI-RP2`; and the Linux per-device test `check_rp2040_block`
passes iff `ID_FS_LABEL` equals `RPI-RP2`. -/
theorem drive_locator_label_rules :
    (∀ snaps : List (List WinVolume),
      (find_rp2040_drive_windows snaps).isSome = true ↔
        ∃ snap ∈ snaps, ∃ v ∈ snap, v.label = "RPI-RP2") ∧
    (∀ snaps : List (List String),
      (find_rp2040_drive_macos snaps).isSome = true ↔
        ∃ snap ∈ snaps, ∃ d ∈ snap, ∃ s t, d.toList = s ++ "RPI-RP2".toList ++ t) ∧
    (∀ dev : BlockDevice, check_rp2040_block dev = true ↔ dev.label = "RPI-RP2") :=
  ⟨find_windows_isSome, find_macos_isSome,
    fun dev => by simp [check_rp2040_block]⟩

/-- C2: whenever the short-timeout probe already found a bootloader
volume, the run performs no serial-port enumeration and no baud touch,
and the event after the probe is directly the image fetch. -/
theorem probe_hit_skips_serial_and_touch (env : Env) (url fname drive : String)
    (h : env.probeDrive = some drive) :
    countTouch (install_uf2_procedure env url fname).1 = 0 ∧
    countScan (install_uf2_procedure env url fname).1 = 0 ∧
    ∃ rest, (install_uf2_procedure env url fname).1 =
      Event.findDrive 2 :: Event.fetch url :: rest := by
  obtain ⟨rest, hr, ht, hs, hf⟩ := finishFlash_shape env url fname drive
  have htr : (install_uf2_procedure env url fname).1 =
      Event.findDrive 2 :: (finishFlash env url fname drive).1 := by
    unfold install_uf2_procedure
    rw [h]
  rw [htr, hr]
  refine ⟨?_, ?_, rest, rfl⟩
  · simpa [countTouch, List.countP_cons] using ht
  · simpa [countScan, List.countP_cons] using hs

/-- C2 witness: a run whose probe finds `E:\` touches nothing, scans no
ports and fetches immediately. -/
theorem probe_hit_skips_serial_and_touch_witness :
    countTouch (install_uf2_procedure
      (Env.mk (some "E:\\") [] (.ok ()) (.ok ()) (.ok ()) (.ok ()) none
        (FetchEnv.mk [] 200 "/tmp") (.ok ())) "https://example.com/fw.uf2" "fw.uf2").1 = 0 ∧
    countScan (install_uf2_procedure
      (Env.mk (some "E:\\") [] (.ok ()) (.ok ()) (.ok ()) (.ok ()) none
        (FetchEnv.mk [] 200 "/tmp") (.ok ())) "https://example.com/fw.uf2" "fw.uf2").1 = 0 ∧
    ∃ rest, (install_uf2_procedure
      (Env.mk (some "E:\\") [] (.ok ()) (.ok ()) (.ok ()) (.ok ()) none
        (FetchEnv.mk [] 200 "/tmp") (.ok ())) "https://example.com/fw.uf2" "fw.uf2").1 =
      Event.findDrive 2 :: Event.fetch "https://example.com/fw.uf2" :: rest :=
  probe_hit_skips_serial_and_touch _ _ _ "E:\\" rfl

/-- C3: `find_rp2040_serial` yields a device exactly when some
enumerated port satisfies the candidate rule — VID 0x2E8A with PID
0x00C0, or a manufacturer string containing `koinslot`
case-insensitively — and yields `None` (it does not raise) exactly when
no port does. -/
theorem serial_locator_candidate_iff (ports : List PortInfo) :
    ((find_rp2040_serial ports).isSome = true ↔ ∃ p ∈ ports, isCandidate p) ∧
    (find_rp2040_serial ports = none ↔ ¬ ∃ p ∈ ports, isCandidate p) := by
  refine ⟨find_serial_isSome ports, ?_⟩
  rw [← find_serial_isSome ports]
  cases find_rp2040_serial ports <;> simp

/-- C4: a run that reaches the Triggering phase touches 1200 baud
exactly twice, on the located port both times, with the 500 ms
inter-touch sleep between them and the 5 s settle sleep after, and only
then starts the 10-second volume poll; no touch occurs later in the
run. -/
theorem triggering_double_touch_sequence (env : Env) (url fname port : String)
    (h1 : env.probeDrive = none)
    (h2 : find_rp2040_serial env.ports = some port) :
    countTouch (install_uf2_procedure env url fname).1 = 2 ∧
    ∃ rest, (install_uf2_procedure env url fname).1 =
      [Event.findDrive 2, Event.scanPorts,
        Event.touch port (touch_1200_baud port env.openRes1 env.closeRes1),
        Event.sleepMs 500,
        Event.touch port (touch_1200_baud port env.openRes2 env.closeRes2),
        Event.sleepMs 5000, Event.findDrive 10] ++ rest ∧
      countTouch rest = 0 := by
  cases ha : env.awaitDrive with
  | none =>
    have htr : (install_uf2_procedure env url fname).1 =
        [Event.findDrive 2, Event.scanPorts,
          Event.touch port (touch_1200_baud port env.openRes1 env.closeRes1),
          Event.sleepMs 500,
          Event.touch port (touch_1200_baud port env.openRes2 env.closeRes2),
          Event.sleepMs 5000, Event.findDrive 10] := by
      unfold install_uf2_procedure
      rw [h1, h2, ha]
    rw [htr]
    exact ⟨rfl, [], by simp, rfl⟩
  | some drive =>
    obtain ⟨rest, hr, ht, hs, hf⟩ := finishFlash_shape env url fname drive
    have htr : (install_uf2_procedure env url fname).1 =
        [Event.findDrive 2, Event.scanPorts,
          Event.touch port (touch_1200_baud port env.openRes1 env.closeRes1),
          Event.sleepMs 500,
          Event.touch port (touch_1200_baud port env.openRes2 env.closeRes2),
          Event.sleepMs 5000, Event.findDrive 10] ++
          (finishFlash env url fname drive).1 := by
      unfold install_uf2_procedure
      rw [h1, h2, ha]
    rw [htr, hr]
    refine ⟨?_, Event.fetch url :: rest, rfl, ht⟩
    rw [countTouch_append]
    have hz : countTouch (Event.fetch url :: rest) = 0 := ht
    rw [hz]
    rfl

/-- C4 witness: a run with no probed volume and one matching port (VID
0x2E8A, PID 0x00C0) records exactly two touches on that port with the
500 ms and 5000 ms sleeps and then the 10 s poll. -/
theorem triggering_double_touch_sequence_witness :
    countTouch (install_uf2_procedure
      (Env.mk none [PortInfo.mk "COM3" (some 0x2E8A) (some 0x00C0) none]
        (.ok ()) (.ok ()) (.error "no such port") (.ok ()) (some "E:\\")
        (FetchEnv.mk [] 200 "/tmp") (.ok ())) "https://example.com/fw.uf2" "fw.uf2").1 = 2 ∧
    ∃ rest, (install_uf2_procedure
      (Env.mk none [PortInfo.mk "COM3" (some 0x2E8A) (some 0x00C0) none]
        (.ok ()) (.ok ()) (.error "no such port") (.ok ()) (some "E:\\")
        (FetchEnv.mk [] 200 "/tmp") (.ok ())) "https://example.com/fw.uf2" "fw.uf2").1 =
      [Event.findDrive 2, Event.scanPorts,
        Event.touch "COM3" (touch_1200_baud "COM3" (.ok ()) (.ok ())),
        Event.sleepMs 500,
        Event.touch "COM3" (touch_1200_baud "COM3" (.error "no such port") (.ok ())),
        Event.sleepMs 5000, Event.findDrive 10] ++ rest ∧
      countTouch rest = 0 :=
  triggering_double_touch_sequence _ _ _ "COM3" rfl (by decide)

/-- C5: any error raised while opening the port at 1200 baud, or while
closing it, is caught by `touch_1200_baud`: the uncaught body raises
(`isOk = false`) while the wrapped call returns normally with the
`Failed 1200 baud touch: ...` warning log, for every port name and
every error message. -/
theorem touch_errors_swallowed (port e : String) (closeRes : Except String Unit) :
    touch_1200_baud port (.error e) closeRes =
      .failed port ("Failed 1200 baud touch: " ++ e) ∧
    touch_1200_baud port (.ok ()) (.error e) =
      .failed port ("Failed 1200 baud touch: " ++ e) ∧
    (touchBody (.error e) closeRes port).isOk = false ∧
    (touchBody (.ok ()) (.error e) port).isOk = false :=
  ⟨rfl, rfl, rfl, rfl⟩

/-- C6: when a volume is in hand (from the probe or from the post-reset
wait) and `download_uf2` raises, the run ends as `FetchFailed` with
that error and no copy onto the volume is ever attempted. -/
theorem fetch_failure_leaves_volume_untouched (env : Env) (url fname e : String)
    (hfetch : download_uf2 env.fetchEnv url fname = .error e)
    (hfound : (∃ d, env.probeDrive = some d) ∨
      (env.probeDrive = none ∧ (∃ p, find_rp2040_serial env.ports = some p) ∧
        ∃ d, env.awaitDrive = some d)) :
    (install_uf2_procedure env url fname).2 = Outcome.fetchFailed e ∧
    countCopy (install_uf2_procedure env url fname).1 = 0 := by
  rcases hfound with ⟨d, hd⟩ | ⟨hp, ⟨p, hs⟩, d, ha⟩
  · have hinst : install_uf2_procedure env url fname =
        ([Event.findDrive 2, Event.fetch url], Outcome.fetchFailed e) := by
      unfold install_uf2_procedure
      rw [hd]
      show (Event.findDrive 2 :: (finishFlash env url fname d).1,
        (finishFlash env url fname d).2) = _
      rw [finishFlash_fetch_error hfetch d]
    rw [hinst]
    exact ⟨rfl, rfl⟩
  · have hinst : install_uf2_procedure env url fname =
        ([Event.findDrive 2, Event.scanPorts,
          Event.touch p (touch_1200_baud p env.openRes1 env.closeRes1),
          Event.sleepMs 500,
          Event.touch p (touch_1200_baud p env.openRes2 env.closeRes2),
          Event.sleepMs 5000, Event.findDrive 10] ++ [Event.fetch url],
          Outcome.fetchFailed e) := by
      unfold install_uf2_procedure
      rw [hp, hs, ha]
      show ([Event.findDrive 2, Event.scanPorts,
        Event.touch p (touch_1200_baud p env.openRes1 env.closeRes1),
        Event.sleepMs 500,
        Event.touch p (touch_1200_baud p env.openRes2 env.closeRes2),
        Event.sleepMs 5000, Event.findDrive 10] ++ (finishFlash env url fname d).1,
        (finishFlash env url fname d).2) = _
      rw [finishFlash_fetch_error hfetch d]
    rw [hinst]
    exact ⟨rfl, rfl⟩

/-- C6 witness: probe finds `E:\`, the HTTP fetch answers 404 — the run
ends `FetchFailed` and records zero copies. -/
theorem fetch_failure_leaves_volume_untouched_witness :
    (install_uf2_procedure
      (Env.mk (some "E:\\") [] (.ok ()) (.ok ()) (.ok ()) (.ok ()) none
        (FetchEnv.mk [] 404 "/tmp") (.ok ())) "https://example.com/fw.uf2" "fw.uf2").2 =
      Outcome.fetchFailed "Failed to download UF2 file: https://example.com/fw.uf2" ∧
    countCopy (install_uf2_procedure
      (Env.mk (some "E:\\") [] (.ok ()) (.ok ()) (.ok ()) (.ok ()) none
        (FetchEnv.mk [] 404 "/tmp") (.ok ())) "https://example.com/fw.uf2" "fw.uf2").1 = 0 :=
  fetch_failure_leaves_volume_untouched _ _ _ _ rfl (Or.inl ⟨"E:\\", rfl⟩)

/-- C7: with no probed volume and no matching serial port, the run is
exactly the probe and the port scan and ends `NoDeviceFound`; no touch,
no fetch, no copy. -/
theorem no_device_terminates_before_trigger (env : Env) (url fname : String)
    (h1 : env.probeDrive = none) (h2 : find_rp2040_serial env.ports = none) :
    install_uf2_procedure env url fname =
      ([Event.findDrive 2, Event.scanPorts], Outcome.noDeviceFound) ∧
    countTouch (install_uf2_procedure env url fname).1 = 0 ∧
    countFetch (install_uf2_procedure env url fname).1 = 0 ∧
    countCopy (install_uf2_procedure env url fname).1 = 0 := by
  have hinst : install_uf2_procedure env url fname =
      ([Event.findDrive 2, Event.scanPorts], Outcome.noDeviceFound) := by
    unfold install_uf2_procedure
    rw [h1, h2]
  refine ⟨hinst, ?_, ?_, ?_⟩ <;> rw [hinst] <;> rfl

/-- C7 witness: no volume and an empty port list end `NoDeviceFound`
with nothing else invoked. -/
theorem no_device_terminates_before_trigger_witness :
    install_uf2_procedure
      (Env.mk none [] (.ok ()) (.ok ()) (.ok ()) (.ok ()) none
        (FetchEnv.mk [] 200 "/tmp") (.ok ())) "https://example.com/fw.uf2" "fw.uf2" =
      ([Event.findDrive 2, Event.scanPorts], Outcome.noDeviceFound) ∧
    countTouch (install_uf2_procedure
      (Env.mk none [] (.ok ()) (.ok ()) (.ok ()) (.ok ()) none
        (FetchEnv.mk [] 200 "/tmp") (.ok ())) "https://example.com/fw.uf2" "fw.uf2").1 = 0 ∧
    countFetch (install_uf2_procedure
      (Env.mk none [] (.ok ()) (.ok ()) (.ok ()) (.ok ()) none
        (FetchEnv.mk [] 200 "/tmp") (.ok ())) "https://example.com/fw.uf2" "fw.uf2").1 = 0 ∧
    countCopy (install_uf2_procedure
      (Env.mk none [] (.ok ()) (.ok ()) (.ok ()) (.ok ()) none
        (FetchEnv.mk [] 200 "/tmp") (.ok ())) "https://example.com/fw.uf2" "fw.uf2").1 = 0 :=
  no_device_terminates_before_trigger _ _ _ rfl rfl

/-- C8: when the touches were sent but the 10-second wait yields no
volume, the run ends `DeviceNotFoundAfterReset` and neither the fetcher
nor the writer is invoked. -/
theorem await_timeout_no_fetch_no_write (env : Env) (url fname port : String)
    (h1 : env.probeDrive = none)
    (h2 : find_rp2040_serial env.ports = some port)
    (h3 : env.awaitDrive = none) :
    (install_uf2_procedure env url fname).2 = Outcome.deviceNotFoundAfterReset ∧
    countFetch (install_uf2_procedure env url fname).1 = 0 ∧
    countCopy (install_uf2_procedure env url fname).1 = 0 := by
  have hinst : install_uf2_procedure env url fname =
      ([Event.findDrive 2, Event.scanPorts,
        Event.touch port (touch_1200_baud port env.openRes1 env.closeRes1),
        Event.sleepMs 500,
        Event.touch port (touch_1200_baud port env.openRes2 env.closeRes2),
        Event.sleepMs 5000, Event.findDrive 10],
        Outcome.deviceNotFoundAfterReset) := by
    unfold install_uf2_procedure
    rw [h1, h2, h3]
  refine ⟨?_, ?_, ?_⟩ <;> rw [hinst] <;> rfl

/-- C8 witness: one Koinslot-manufacturer port, touches sent, no volume
within the long wait — `DeviceNotFoundAfterReset`, zero fetches, zero
copies. -/
theorem await_timeout_no_fetch_no_write_witness :
    (install_uf2_procedure
      (Env.mk none [PortInfo.mk "/dev/ttyACM0" none none (some "KOINSLOT Inc.")]
        (.ok ()) (.ok ()) (.ok ()) (.ok ()) none
        (FetchEnv.mk [] 200 "/tmp") (.ok ())) "https://example.com/fw.uf2" "fw.uf2").2 =
      Outcome.deviceNotFoundAfterReset ∧
    countFetch (install_uf2_procedure
      (Env.mk none [PortInfo.mk "/dev/ttyACM0" none none (some "KOINSLOT Inc.")]
        (.ok ()) (.ok ()) (.ok ()) (.ok ()) none
        (FetchEnv.mk [] 200 "/tmp") (.ok ())) "https://example.com/fw.uf2" "fw.uf2").1 = 0 ∧
    countCopy (install_uf2_procedure
      (Env.mk none [PortInfo.mk "/dev/ttyACM0" none none (some "KOINSLOT Inc.")]
        (.ok ()) (.ok ()) (.ok ()) (.ok ()) none
        (FetchEnv.mk [] 200 "/tmp") (.ok ())) "https://example.com/fw.uf2" "fw.uf2").1 = 0 :=
  await_timeout_no_fetch_no_write _ _ _ "/dev/ttyACM0" rfl (by decide) rfl

/-- C9: a port whose raw vendor ID or product ID is zero can never
satisfy the VID/PID half of the match (Python truthiness formats a zero
ID to `None`, never to `"0000"`): the identity conjunction is `false`
and the whole match degenerates to the manufacturer rule. -/
theorem zero_id_never_identity_match (p : PortInfo)
    (h : p.vid = some 0 ∨ p.pid = some 0) :
    (fmtId p.vid == some "2e8a" && fmtId p.pid == some "00c0") = false ∧
    portMatches p = manuMatches p.manufacturer := by
  have hid : (fmtId p.vid == some "2e8a" && fmtId p.pid == some "00c0") = false := by
    rcases h with h | h <;> rw [h]
    · simp [fmtId]
    · simp [fmtId]
  exact ⟨hid, by simp [portMatches, hid]⟩

/-- C9 witness: a port with vendor ID 0 (and even the right product ID
192 = 0x00C0) fails the identity rule; its match equals the
manufacturer rule alone. -/
theorem zero_id_never_identity_match_witness :
    (fmtId (PortInfo.mk "/dev/ttyACM0" (some 0) (some 192) (some "Koinslot, Inc")).vid
        == some "2e8a" &&
      fmtId (PortInfo.mk "/dev/ttyACM0" (some 0) (some 192) (some "Koinslot, Inc")).pid
        == some "00c0") = false ∧
    portMatches (PortInfo.mk "/dev/ttyACM0" (some 0) (some 192) (some "Koinslot, Inc")) =
      manuMatches (PortInfo.mk "/dev/ttyACM0" (some 0) (some 192)
        (some "Koinslot, Inc")).manufacturer :=
  zero_id_never_identity_match _ (Or.inl rfl)

/-- C10: when the synchronous scan of already-attached block devices
finds a labelled `RPI-RP2` device that the live mount table does not
list, `find_rp2040_drive_linux` returns `None` at once — whatever
hotplug events would have followed are never consumed (the monitor
phase never runs), so a found-but-unmounted device is indistinguishable
from no device in the returned value. -/
theorem unmounted_match_returns_none_immediately
    (existing : List BlockDevice) (mounts : List (String × String)) (dev : BlockDevice)
    (h1 : scanExisting existing = some dev)
    (h2 : ∀ pr ∈ mounts, pr.2 ≠ dev.node) :
    ∀ events : List UdevEvent,
      find_rp2040_drive_linux (LinuxEnv.mk existing events mounts) = none := by
  intro events
  show (match scanExisting existing with
    | some d => mount_or_find_mount mounts d
    | none => processEvents mounts events) = none
  rw [h1]
  exact mount_none_of_not_listed mounts dev h2

/-- C10 witness: `/dev/sdb1` labelled `RPI-RP2` is attached but
unmounted; the result is `None` even though a mounted matching device
arrives as a hotplug event afterwards. -/
theorem unmounted_match_returns_none_immediately_witness :
    find_rp2040_drive_linux (LinuxEnv.mk
      [BlockDevice.mk "/dev/sdb1" "RPI-RP2"]
      [UdevEvent.mk "add" "block" (BlockDevice.mk "/dev/sdc1" "RPI-RP2")]
      [("/", "/dev/sda2"), ("/media/user/RPI-RP2", "/dev/sdc1")]) = none :=
  unmounted_match_returns_none_immediately _ _ (BlockDevice.mk "/dev/sdb1" "RPI-RP2")
    (by decide) (by decide)
    [UdevEvent.mk "add" "block" (BlockDevice.mk "/dev/sdc1" "RPI-RP2")]
